import Mathlib

/-!
Verification of the gemflow repository's core generation and dispatch logic.

This file shallowly embeds, in Lean, the parts of the repository that the
claims are about:

* `src/gemini_automation/generator.py` — `ImageGenerator.generate`, the
  per-job polling state machine (navigate, authentication check, tool
  activation, prompt submission, bounded polling for qualifying image
  assets, outcome classification);
* `src/gemini_automation/flow_generator.py` — the rejection-phrase
  detector `FlowImageGenerator._detect_content_rejection` and the
  post-loop outcome classification of `FlowImageGenerator.generate`;
* `src/gemini_automation/parallel.py` — `run_parallel` and
  `_account_worker`: validation of the account list, the shared FIFO
  dispatch queue, the per-account worker loop, crash isolation, and the
  assembly of the index-ordered aggregate result.

Browser effects (Playwright calls, the optional `BrowserOverlay` object
whose module is not part of the sources) are modelled as oracles: each
awaited operation is a field of an environment record holding either the
value the call returned or, as `Except.error msg`, the exception it threw.
Python's `try/except` blocks are translated as the corresponding matches
on those `Except` values, exactly following the source's control flow.
Machine reals for elapsed/timeout bookkeeping are modelled as natural
numbers of milliseconds; for the increments of 5.0 seconds used by the
code the float comparison `elapsed < timeout_s` agrees exactly with the
integer comparison on milliseconds.

The embedding of `ImageGenerator.generate` additionally returns a list of
events (`GenEv`) recording, in execution order, the externally visible
actions the code performed (navigation, the authentication check, tool
activation, prompt submission, per-tick liveness checks and asset
sampling). The events are pure instrumentation: they are appended next to
each translated statement and do not influence the computed result.
-/

deriving instance DecidableEq for Except

/-- The `GenerationResult` dataclass of generator.py (lines 14–21). -/
structure GenerationResult where
  prompt : String
  image_urls : List String
  success : Bool
  error : Option String
deriving DecidableEq, Repr

/-- One `<img>` element handle as observed during a poll tick: the results
of the three awaited calls the collection loop performs on it
(`is_visible`, the `naturalWidth`/`naturalHeight` evaluate, and
`get_attribute("src")`).  Each can raise, which the source catches with
`continue`. -/
structure ElObs where
  visible : Except String Bool
  dims : Except String (Nat × Nat)
  src : Except String (Option String)
deriving DecidableEq, Repr

/-- Observations available to one iteration of the polling loop of
`ImageGenerator.generate`: the overlay skip flag, the per-tick overlay
update outcome, the page-liveness sample, the "turn complete" feedback
button sample, and the two asset-collection samples (`locator.all()`
before and after the 3-second grace wait). -/
structure TickObs where
  skip : Bool
  updateWaiting : Except String Unit
  alive : Bool
  responseComplete : Except String Bool
  elements : Except String (List ElObs)
  regather : Except String (List ElObs)
deriving DecidableEq, Repr

/-- Outcomes of the three pre-loop `overlay.update` calls.  The overlay
object (`BrowserOverlay`) is an external collaborator; its methods are
modelled as oracles that either return or throw. -/
structure OverlayEnv where
  updateLoading : Except String Unit
  updateActivating : Except String Unit
  updateSending : Except String Unit
deriving DecidableEq, Repr

/-- Outcomes of the awaited calls inside
`ImageGenerator._activate_create_images_tool` (generator.py lines 33–67). -/
structure ActivateEnv where
  textareaClick : Except String Unit
  toolsVisible : Except String Unit
  toolsClick : Except String Unit
  createVisible : Except String Unit
  escapePress : Except String Unit
  createClick : Except String Unit
deriving DecidableEq, Repr

/-- Environment of one `ImageGenerator.generate` call: one oracle per
awaited page operation, the configured generation timeout in
milliseconds, and a stream of per-tick observations for the polling
loop. -/
structure GenEnv where
  gotoResult : Except String Unit
  overlay : Option OverlayEnv
  textareaVisible : Except String Unit
  activate : ActivateEnv
  textareaClick2 : Except String Unit
  textareaFill : Except String Unit
  pressEnter : Except String Unit
  generationTimeoutMs : Nat
  ticks : Nat → TickObs

/-- Instrumentation events recording the externally visible actions of a
`generate` run, in order: navigation, the authentication check (the
30-second wait for the prompt textarea, whose failure is reported as
"Textarea not found - may not be logged in"), tool activation, the
submission of the prompt (the Enter keypress), the per-tick
`_is_page_alive` liveness checks, and the per-tick sampled URL list after
the first collection pass. -/
inductive GenEv where
  | goto
  | authCheck (ok : Bool)
  | activateTool (ok : Bool)
  | submit
  | livenessCheck (alive : Bool)
  | sampled (urls : List String)
deriving DecidableEq, Repr

/-- Embedding of `_activate_create_images_tool` (generator.py lines 33–67).
`Except.error` is an exception escaping the method (propagating to
`generate`'s outer handler); `Except.ok (some msg)` is one of its error
returns; `Except.ok none` is success. -/
def activate_create_images_tool (a : ActivateEnv) : Except String (Option String) :=
  match a.textareaClick with
  | .error e => .error e
  | .ok () =>
    match a.toolsVisible with
    | .error _ => .ok (some "Tools button not found on page")
    | .ok () =>
      match a.toolsClick with
      | .error e => .error e
      | .ok () =>
        match a.createVisible with
        | .error _ =>
          match a.escapePress with
          | .error e => .error e
          | .ok () => .ok (some "Create images option not found in Tools menu")
        | .ok () =>
          match a.createClick with
          | .error e => .error e
          | .ok () => .ok none

/-- One element of the collection pass (generator.py lines 220–236 and the
identical re-collection at 239–258): skip if `is_visible` raised or
returned false, skip if the dimension evaluate raised, require both
natural dimensions at least `min_dim = 256`, then read `src` (skip on
exception) and append it when it is truthy and not yet collected. -/
def collectOne (urls : List String) (el : ElObs) : List String :=
  match el.visible with
  | .error _ => urls
  | .ok false => urls
  | .ok true =>
    match el.dims with
    | .error _ => urls
    | .ok (w, h) =>
      if 256 ≤ w ∧ 256 ≤ h then
        match el.src with
        | .error _ => urls
        | .ok none => urls
        | .ok (some s) => if s ≠ "" ∧ s ∉ urls then urls ++ [s] else urls
      else urls

/-- The `for el in elements` collection loop over one `locator.all()`
sample. -/
def collectImages (els : List ElObs) (urls : List String) : List String :=
  els.foldl collectOne urls

/-- Python's `f"{ms/1000:.0f}"` for a millisecond count: the seconds value
rounded half-to-even (the exact quotient `ms/1000` at a half boundary is
exactly representable as a double, so IEEE division and `:.0f` formatting
realise exactly this rounding). -/
def secondsDisplay (ms : Nat) : Nat :=
  let q := ms / 1000
  let r := ms % 1000
  if 500 < r then q + 1
  else if r < 500 then q
  else if q % 2 = 0 then q else q + 1

/-- The timeout error message of generator.py line 272 (also produced by
flow_generator.py line 710). -/
def timeoutMsg (timeoutMs : Nat) : String :=
  "Image generation timed out after " ++ toString (secondsDisplay timeoutMs) ++ "s"

/-- Fixed error message of the text-only / content-policy classification
(generator.py lines 262–266). -/
def textOnlyMsg : String :=
  "Gemini responded with text only (likely refused due to content policy)"

/-- The code after the polling loop (generator.py lines 269–280): with no
collected URLs the attempt timed out, otherwise it is a success carrying
the collected URLs.  A `break` out of the loop jumps here as well. -/
def finishPoll (prompt : String) (timeoutMs : Nat) (urls : List String) :
    GenerationResult :=
  if urls = [] then
    { prompt := prompt, image_urls := [], success := false,
      error := some (timeoutMsg timeoutMs) }
  else
    { prompt := prompt, image_urls := urls, success := true, error := none }

/-- Top-of-iteration overlay interaction (generator.py lines 197–216):
when an overlay is attached, `check_skip` is consulted (`.ok true` means
the user skipped) and then the per-tick `overlay.update` runs, whose
exception propagates.  Without an overlay neither call happens. -/
def overlayTickGate : Option OverlayEnv → TickObs → Except String Bool
  | none, _ => .ok false
  | some _, t =>
    if t.skip then .ok true
    else
      match t.updateWaiting with
      | .error e => .error e
      | .ok () => .ok false

/-- Number of iterations of `while elapsed < timeout_s` with
`poll_interval = 5.0` seconds: `elapsed` visits `0, 5, 10, …` seconds, so
the loop body runs `⌈timeoutMs / 5000⌉` times. -/
def numTicks (timeoutMs : Nat) : Nat := (timeoutMs + 4999) / 5000

/-- The `response_complete` sample of one tick (generator.py lines
197–205): true when the feedback button was counted and visible; an
exception in the sampling is swallowed by `try/except pass`, leaving the
flag False. -/
def rcSample (t : TickObs) : Bool :=
  match t.responseComplete with
  | .ok b => b
  | .error _ => false

/-- The polling loop of `ImageGenerator.generate` (generator.py lines
163–267), one constructor case per remaining iteration.  Returns the
outcome (`Except.error` when an exception escapes the loop to `generate`'s
outer handler) together with this call's instrumentation events. -/
def pollLoop (env : GenEnv) (prompt : String) :
    Nat → Nat → List String → Except String GenerationResult × List GenEv
  | 0, _, urls => (.ok (finishPoll prompt env.generationTimeoutMs urls), [])
  | fuel + 1, k, urls =>
    let t := env.ticks k
    match overlayTickGate env.overlay t with
    | .error e => (.error e, [])
    | .ok true =>
      (.ok { prompt := prompt, image_urls := [], success := false,
             error := some "Skipped by user" }, [])
    | .ok false =>
      if t.alive then
        let rc := rcSample t
        match t.elements with
        | .error _ =>
          (.ok { prompt := prompt, image_urls := [], success := false,
                 error := some "Lost connection to browser during generation" },
           [.livenessCheck true])
        | .ok els =>
          let urls2 := collectImages els urls
          if urls2 = [] then
            if rc then
              (.ok { prompt := prompt, image_urls := [], success := false,
                     error := some textOnlyMsg },
               [.livenessCheck true, .sampled urls2])
            else
              let rest := pollLoop env prompt fuel (k + 1) urls2
              (rest.1, [.livenessCheck true, .sampled urls2] ++ rest.2)
          else
            let urls3 := match t.regather with
              | .error _ => urls2
              | .ok els2 => collectImages els2 urls2
            (.ok (finishPoll prompt env.generationTimeoutMs urls3),
             [.livenessCheck true, .sampled urls2])
      else
        (.ok { prompt := prompt, image_urls := [], success := false,
               error := some "Browser page was closed during generation" },
         [.livenessCheck false])

/-- One optional-overlay update call sequenced inside the body of
`generate`. -/
def overlayStep : Option OverlayEnv → (OverlayEnv → Except String Unit) →
    Except String Unit
  | none, _ => .ok ()
  | some o, f => f o

/-- The body of `ImageGenerator.generate` inside its outer `try`
(generator.py lines 112–280): navigate, overlay update, the
authentication check (30-second wait for the prompt textarea, whose
failure returns "Textarea not found - may not be logged in"), promo
dialog dismissal (`_dismiss_promo_dialogs` swallows every exception and
returns nothing, so it contributes no oracle), tool activation, prompt
fill and submission, then the polling loop.  `Except.error` is an
exception reaching the outer handler. -/
def genBody (env : GenEnv) (prompt : String) :
    Except String GenerationResult × List GenEv :=
  match env.gotoResult with
  | .error e => (.error e, [])
  | .ok () =>
    match overlayStep env.overlay (fun o => o.updateLoading) with
    | .error e => (.error e, [.goto])
    | .ok () =>
      match env.textareaVisible with
      | .error _ =>
        (.ok { prompt := prompt, image_urls := [], success := false,
               error := some "Textarea not found - may not be logged in" },
         [.goto, .authCheck false])
      | .ok () =>
        match overlayStep env.overlay (fun o => o.updateActivating) with
        | .error e => (.error e, [.goto, .authCheck true])
        | .ok () =>
          match activate_create_images_tool env.activate with
          | .error e => (.error e, [.goto, .authCheck true])
          | .ok (some msg) =>
            (.ok { prompt := prompt, image_urls := [], success := false,
                   error := some ("Failed to activate image tool: " ++ msg) },
             [.goto, .authCheck true, .activateTool false])
          | .ok none =>
            match overlayStep env.overlay (fun o => o.updateSending) with
            | .error e => (.error e, [.goto, .authCheck true, .activateTool true])
            | .ok () =>
              match env.textareaClick2 with
              | .error e => (.error e, [.goto, .authCheck true, .activateTool true])
              | .ok () =>
                match env.textareaFill with
                | .error e =>
                  (.error e, [.goto, .authCheck true, .activateTool true])
                | .ok () =>
                  match env.pressEnter with
                  | .error e =>
                    (.error e, [.goto, .authCheck true, .activateTool true])
                  | .ok () =>
                    let rest :=
                      pollLoop env prompt (numTicks env.generationTimeoutMs) 0 []
                    (rest.1,
                     [.goto, .authCheck true, .activateTool true, .submit]
                       ++ rest.2)

/-- Embedding of `ImageGenerator.generate` (generator.py lines 112–287): the body runs
under `try`, and any exception is caught and mapped to a failure result
carrying the exception's message (lines 282–287). -/
def generate (env : GenEnv) (prompt : String) : GenerationResult × List GenEv :=
  match genBody env prompt with
  | (.ok r, evs) => (r, evs)
  | (.error e, evs) =>
    ({ prompt := prompt, image_urls := [], success := false, error := some e },
     evs)

/-! ## FlowImageGenerator: rejection-phrase detector and post-loop
classification (flow_generator.py) -/

/-- The `FlowGenerationResult` dataclass of flow_generator.py (lines 34–41). -/
structure FlowGenerationResult where
  prompt : String
  image_urls : List String
  success : Bool
  error : Option String
deriving DecidableEq, Repr

/-- Does `needle` start the character list `hay`? -/
def startsWithChars : List Char → List Char → Bool
  | [], _ => true
  | _ :: _, [] => false
  | n :: ns, c :: cs => n == c && startsWithChars ns cs

/-- Python's substring test `needle in hay` over character lists. -/
def subOccurs (needle : List Char) : List Char → Bool
  | [] => needle.isEmpty
  | c :: t => startsWithChars needle (c :: t) || subOccurs needle t

/-- Python's substring test `needle in hay` on strings. -/
def hasSub (hay needle : String) : Bool := subOccurs needle.data hay.data

/-- Python's `str.lower()` (ASCII case folding, which covers every
character of the rejection phrases; Korean has no case). -/
def lowerStr (cs : List Char) : List Char := cs.map Char.toLower

/-- Python's `str.split("\n")`: split at every newline, keeping empty
pieces. -/
def splitLinesChars : List Char → List (List Char)
  | [] => [[]]
  | c :: t =>
    match splitLinesChars t with
    | [] => [[]]
    | l :: ls => if c == '\n' then [] :: l :: ls else (c :: l) :: ls

/-- Python's `str.strip()`: drop leading and trailing whitespace. -/
def stripChars (cs : List Char) : List Char :=
  ((cs.dropWhile Char.isWhitespace).reverse.dropWhile Char.isWhitespace).reverse

/-- The rejection phrase list of
`FlowImageGenerator._detect_content_rejection` (flow_generator.py lines
510–526). -/
def rejectionPhrases : List String :=
  ["can\x27t generate", "unable to generate", "content policy",
   "policy violation", "copyright", "not allowed", "couldn\x27t create",
   "violates", "harmful content", "unsafe content",
   "생성할 수 없", "정책 위반", "저작권", "허용되지 않", "유해한 콘텐츠"]

/-- Error detail built for the first phrase that matches: the first line
of the page text containing the phrase case-insensitively, stripped and
truncated to 200 characters, or the fallback naming the phrase
(flow_generator.py lines 533–540). -/
def rejectionMessage (body ph : String) : String :=
  match (splitLinesChars body.data).find?
      (fun line => subOccurs (lowerStr ph.data) (lowerStr line)) with
  | some line =>
    "Content policy rejection: " ++ String.mk ((stripChars line).take 200)
  | none => "Content policy rejection (matched: \x27" ++ ph ++ "\x27)"

/-- The `for phrase in rejection_phrases` loop (flow_generator.py lines
532–540): return on the first phrase contained in the lowercased page
text. -/
def findRejection (body : String) (bodyLower : List Char) :
    List String → Option String
  | [] => none
  | ph :: rest =>
    if subOccurs (lowerStr ph.data) bodyLower then some (rejectionMessage body ph)
    else findRejection body bodyLower rest

/-- Embedding of `FlowImageGenerator._detect_content_rejection` (flow_generator.py
lines 505–543): `bodyText` is the result of the page-text evaluate (its
exception is swallowed, yielding no detection). -/
def detect_content_rejection (bodyText : Except String String) : Option String :=
  match bodyText with
  | .error _ => none
  | .ok body => findRejection body (lowerStr body.data) rejectionPhrases

/-- The classification `FlowImageGenerator.generate` performs after its
polling loop ends with zero new images (flow_generator.py lines 695–711):
a content-policy rejection when the phrase scan finds one, otherwise a
timeout. -/
def flowNoImagesOutcome (prompt : String) (bodyText : Except String String)
    (timeoutMs : Nat) : FlowGenerationResult :=
  match detect_content_rejection bodyText with
  | some msg =>
    { prompt := prompt, image_urls := [], success := false, error := some msg }
  | none =>
    { prompt := prompt, image_urls := [], success := false,
      error := some (timeoutMsg timeoutMs) }

/-! ## parallel.py: dispatch queue, workers, aggregate assembly -/

/-- The `ParallelResult` dataclass of parallel.py (lines 23–32). -/
structure ParallelResult where
  prompt : String
  account : String
  image_urls : List String
  saved_files : List String
  success : Bool
  error : Option String
deriving DecidableEq, Repr

/-- One entry of the `all_results` list built by `run_parallel`
(parallel.py lines 207–230). -/
structure OutEntry where
  prompt : String
  account : Option String
  success : Bool
  images : List String
  error : Option String
deriving DecidableEq, Repr

/-- The JSON-serializable dict returned by `run_parallel` (parallel.py
lines 231–239 and the two early validation returns).  `accounts_used` is
empty for the early returns (the key is absent there);  `workersStarted`
is instrumentation recording how many worker tasks were created
(`len(tasks)`, parallel.py lines 188–205). -/
structure RunOutput where
  error : Option String
  results : List OutEntry
  total_prompts : Nat
  successful : Nat
  failed : Nat
  accounts_used : List String
  workersStarted : Nat
deriving DecidableEq, Repr

/-- What one pulled job does in `_account_worker`'s loop body (the
sleeps, `generator.generate`, the download, and the `results[idx] = pr`
store, parallel.py lines 69–107): either some awaited call raises — the
worker-level `except Exception` then ends the worker without recording or
requeueing the pulled item — or the job finishes with this generation
result, recording an outcome.  `generate` itself never raises (its
boundary catches), so a finished job always carries a result. -/
inductive JobBehavior where
  | crash (msg : String)
  | finish (gen : GenerationResult) (savedFiles : List String)

/-- Per-worker oracle: whether `launch_persistent_context`/page setup
raises (parallel.py lines 46–58), and the behavior of the n-th job the
worker pulls. -/
structure WorkerScript where
  setupFails : Option String
  jobs : Nat → JobBehavior

/-- Control position of one worker coroutine between suspension points. -/
inductive WPhase where
  | setup
  | idle
  | working (idx : Nat) (prompt : String) (jobNum : Nat)
  | done (crashed : Bool)
deriving DecidableEq, Repr

/-- Shared state of the worker pool: the `asyncio.Queue` of
`(index, prompt)` pairs, the shared `results` dict, each worker's control
position and pull count, and an instrumentation log of every queue pull
as `(index, worker)`. -/
structure PoolSt where
  queue : List (Nat × String)
  results : List (Nat × ParallelResult)
  phases : Nat → WPhase
  pulls : Nat → Nat
  pullLog : List (Nat × Nat)

/-- The `ParallelResult` stored by `_account_worker` for a finished job
(parallel.py lines 83–98): built from the generation result, with
`saved_files` filled from the download only on success. -/
def mkParallelResult (prompt account : String) (gen : GenerationResult)
    (saved : List String) : ParallelResult :=
  { prompt := prompt, account := account,
    image_urls := gen.image_urls,
    saved_files := if gen.success then saved else [],
    success := gen.success, error := gen.error }

/-- Small-step embedding of `_account_worker` (parallel.py lines 35–107):
advance worker `w` one step.  Setup either raises (worker dies, caught at
lines 100–102) or completes; an idle worker performs the atomic
`queue.get_nowait()`, exiting on `QueueEmpty`; a working worker either
crashes (its pulled item is recorded nowhere and not requeued) or stores
its outcome in the shared `results` dict and loops.  Workers are
scheduled cooperatively: every interleaving of these steps corresponds to
a choice of suspension-point schedule, and `get_nowait` plus the dict
store are synchronous, hence atomic steps. -/
def account_worker_step (names : List String) (scripts : Nat → WorkerScript)
    (st : PoolSt) (w : Nat) : PoolSt :=
  if w < names.length then
    match st.phases w with
    | .setup =>
      match (scripts w).setupFails with
      | some _ => { st with phases := Function.update st.phases w (.done true) }
      | none => { st with phases := Function.update st.phases w .idle }
    | .idle =>
      match st.queue with
      | [] => { st with phases := Function.update st.phases w (.done false) }
      | (i, p) :: rest =>
        { st with queue := rest,
                  phases := Function.update st.phases w (.working i p (st.pulls w)),
                  pulls := Function.update st.pulls w (st.pulls w + 1),
                  pullLog := (i, w) :: st.pullLog }
    | .working i p k =>
      match (scripts w).jobs k with
      | .crash _ => { st with phases := Function.update st.phases w (.done true) }
      | .finish gen saved =>
        { st with
            results := (i, mkParallelResult p (names.getD w "") gen saved)
                         :: st.results,
            phases := Function.update st.phases w .idle }
    | .done _ => st
  else st

/-- Run the worker pool under a given cooperative schedule (the sequence
of workers picked at successive suspension points). -/
def runPool (names : List String) (scripts : Nat → WorkerScript)
    (sched : List Nat) (st : PoolSt) : PoolSt :=
  sched.foldl (account_worker_step names scripts) st

/-- Python's `enumerate` over the prompt list, as used both to seed the
queue (parallel.py lines 179–181) and to assemble `all_results` (lines
207–230). -/
def enumIdx (l : List String) : List (Nat × String) :=
  (List.range l.length).map (fun i => (i, l.getD i ""))

/-- Initial pool state: the queue seeded with `(index, prompt)` pairs in
submission order, empty results, every worker about to set up. -/
def poolInit (prompts : List String) : PoolSt :=
  { queue := enumIdx prompts, results := [], phases := fun _ => .setup,
    pulls := fun _ => 0, pullLog := [] }

/-- Lookup in the `results` dict keyed by prompt index (`if i in results`,
parallel.py line 209).  Indices are stored at most once, so association
list lookup matches dict semantics. -/
def lookupIdx (rs : List (Nat × ParallelResult)) (i : Nat) : Option ParallelResult :=
  match rs with
  | [] => none
  | (j, pr) :: t => if j = i then some pr else lookupIdx t i

/-- The dict appended to `all_results` for a processed index
(parallel.py lines 210–218). -/
def toOutEntry (pr : ParallelResult) : OutEntry :=
  { prompt := pr.prompt, account := some pr.account, success := pr.success,
    images := pr.saved_files, error := pr.error }

/-- The dict appended to `all_results` for an index no worker completed
(parallel.py lines 220–228). -/
def notProcessedEntry (prompt : String) : OutEntry :=
  { prompt := prompt, account := none, success := false, images := [],
    error := some "Prompt was not processed (all workers failed)" }

/-- Assembly of the ordered `all_results` list (parallel.py lines
206–230). -/
def buildAllResults (prompts : List String) (results : List (Nat × ParallelResult)) :
    List OutEntry :=
  (enumIdx prompts).map (fun ip =>
    match lookupIdx results ip.1 with
    | some pr => toOutEntry pr
    | none => notProcessedEntry ip.2)

/-- Python's `max_concurrent or len(account_names)` (parallel.py line
157): `None` and `0` are falsy and fall back to the account count. -/
def pyOrNat (mc : Option Nat) (d : Nat) : Nat :=
  match mc with
  | none => d
  | some k => if k = 0 then d else k

/-- The bound `effective_concurrent = min(max_concurrent or len(account_names),
len(account_names), len(prompts))` (parallel.py lines 156–161). -/
def effectiveConcurrent (mc : Option Nat) (names prompts : List String) : Nat :=
  min (pyOrNat mc names.length) (min names.length prompts.length)

/-- Python repr of a list of strings, as interpolated into the
account-not-found message. -/
def pyListRepr (xs : List String) : String :=
  "[" ++ String.intercalate ", " (xs.map (fun s => "\x27" ++ s ++ "\x27")) ++ "]"

/-- The two validation failures of `run_parallel` (parallel.py lines
127–154). -/
inductive EarlyErr where
  | noAccounts
  | notFound (name : String) (available : List String)
deriving DecidableEq, Repr

/-- The test `len(account_names) == 1 and account_names[0].lower() == "all"`
(parallel.py line 126). -/
def isAllCase (accountNames : List String) : Bool :=
  accountNames.length = 1
    && ((accountNames.headD "").data.map Char.toLower == "all".data)

/-- The `for name in account_names: if not mgr.get(name)` validation loop
(parallel.py lines 142–153): fail on the first name absent from the
registry. -/
def validateNames (names registry : List String) : Except EarlyErr (List String) :=
  match names.find? (fun n => !(registry.contains n)) with
  | some n => .error (.notFound n registry)
  | none => .ok names

/-- Resolution of the special `["all"]` account list (parallel.py lines
126–140) followed by validation: the registry is modelled by the list of
registered account names that `AccountManager.list_accounts`/`get` read
from `accounts.json`. -/
def resolveAndValidate (accountNames registry : List String) :
    Except EarlyErr (List String) :=
  if isAllCase accountNames then
    if registry = [] then .error .noAccounts
    else validateNames registry registry
  else validateNames accountNames registry

/-- The early-return dict shared by both validation failures (parallel.py
lines 129–139 and 144–153): empty results, zero successes, all prompts
counted failed. -/
def earlyOutput (msg : String) (prompts : List String) : RunOutput :=
  { error := some msg, results := [], total_prompts := prompts.length,
    successful := 0, failed := prompts.length, accounts_used := [],
    workersStarted := 0 }

/-- Embedding of `run_parallel` (parallel.py lines 110–239): resolve and validate the
account list, bound concurrency, seed the queue, run one worker per
active account under the cooperative schedule, then assemble the
index-ordered aggregate. -/
def run_parallel (prompts accountNames registry : List String)
    (mc : Option Nat) (scripts : Nat → WorkerScript) (sched : List Nat) :
    RunOutput :=
  match resolveAndValidate accountNames registry with
  | .error .noAccounts => earlyOutput "No accounts registered." prompts
  | .error (.notFound n avail) =>
    earlyOutput
      ("Account \x27" ++ n ++ "\x27 not found. Available: " ++ pyListRepr avail)
      prompts
  | .ok resolved =>
    let active := resolved.take (effectiveConcurrent mc resolved prompts)
    let finalSt := runPool active scripts sched (poolInit prompts)
    let allRes := buildAllResults prompts finalSt.results
    let succ := allRes.countP (fun r => r.success)
    { error := none, results := allRes, total_prompts := prompts.length,
      successful := succ, failed := allRes.length - succ,
      accounts_used := active, workersStarted := active.length }

/-- The final pool state reached inside `run_parallel` (the state after
`asyncio.gather` returns), exposed for stating pool-level invariants;
on validation failure no worker ever runs and the state is the initial
one. -/
def runParallelState (prompts accountNames registry : List String)
    (mc : Option Nat) (scripts : Nat → WorkerScript) (sched : List Nat) :
    PoolSt :=
  match resolveAndValidate accountNames registry with
  | .error _ => poolInit prompts
  | .ok resolved =>
    runPool (resolved.take (effectiveConcurrent mc resolved prompts)) scripts
      sched (poolInit prompts)

/-! ## Specification predicates and instrumentation helpers -/

/-- Well-formedness of a `GenerationResult` as produced by `generate`:
success exactly when assets were collected, failure exactly when an error
message is carried. -/
def ResultOk (g : GenerationResult) : Prop :=
  (g.success = true ↔ g.image_urls ≠ []) ∧ (g.success = false ↔ g.error ≠ none)

/-- The element was sampled visible, with both natural dimensions at least
the 256-pixel minimum, and its `src` attribute read back as URL `u`. -/
def qualifiesFor (el : ElObs) (u : String) : Prop :=
  el.visible = .ok true ∧
  (∃ w h, el.dims = .ok (w, h) ∧ 256 ≤ w ∧ 256 ≤ h) ∧
  el.src = .ok (some u)

/-- All element observations the environment offers at tick `k` (first
collection pass and the post-grace re-collection). -/
def tickEls (env : GenEnv) (k : Nat) : List ElObs :=
  (match (env.ticks k).elements with | .ok l => l | .error _ => []) ++
  (match (env.ticks k).regather with | .ok l => l | .error _ => [])

/-- A poll tick at which the page is alive, the element sample succeeds,
and the collection pass gathers nothing — the offered elements may
include any number of non-qualifying ones (invisible, below the 256-px
threshold, or with an uncollectable `src`), which is exactly a tick at
which no qualifying asset is observed.  (A dead page, or an element
sample that throws, ends the run with the page-closed or lost-connection
Failure instead of polling on, so those ticks fall outside a run that
times out.) -/
def noAssetTick (t : TickObs) : Prop :=
  t.alive = true ∧ ∃ els, t.elements = .ok els ∧ collectImages els [] = []

/-- When an overlay is attached, its three pre-loop `update` calls return
normally (vacuously true without an overlay). -/
def overlayPreOk (env : GenEnv) : Prop :=
  ∀ o, env.overlay = some o →
    o.updateLoading = .ok () ∧ o.updateActivating = .ok () ∧
    o.updateSending = .ok ()

/-- All page operations of `generate` before the polling loop succeed. -/
def preOk (env : GenEnv) : Prop :=
  env.gotoResult = .ok () ∧ env.textareaVisible = .ok () ∧
  env.activate.textareaClick = .ok () ∧ env.activate.toolsVisible = .ok () ∧
  env.activate.toolsClick = .ok () ∧ env.activate.createVisible = .ok () ∧
  env.activate.createClick = .ok () ∧ env.textareaClick2 = .ok () ∧
  env.textareaFill = .ok () ∧ env.pressEnter = .ok ()

/-- Recognize a per-tick `_is_page_alive` check event. -/
def isLivenessEv : GenEv → Bool
  | .livenessCheck _ => true
  | _ => false

/-- The first overlay update, if an overlay is attached, returns
normally. -/
def overlayLoadOk (env : GenEnv) : Prop :=
  ∀ o, env.overlay = some o → o.updateLoading = .ok ()

/-- Invariant of the worker pool maintained by every
`account_worker_step`: queue and results entries pair each index with the
submitted prompt at that index; no index is pulled twice; un-pulled
indices are exactly the ones still in the queue; a worker in its
processing phase works on an item it pulled; and every pulled index is
either recorded, currently being processed by its puller, or lost to its
puller's crash. -/
structure PoolInv (prompts : List String) (st : PoolSt) : Prop where
  queue_ok : ∀ e ∈ st.queue, prompts.getD e.1 "" = e.2 ∧ e.1 < prompts.length
  results_ok : ∀ r ∈ st.results, prompts.getD r.1 "" = r.2.prompt ∧ r.1 < prompts.length
  pull_nodup : (st.pullLog.map Prod.fst).Nodup
  queue_nodup : (st.queue.map Prod.fst).Nodup
  disj : ∀ i ∈ st.queue.map Prod.fst, i ∉ st.pullLog.map Prod.fst
  working_ok : ∀ w i p k, st.phases w = .working i p k →
    prompts.getD i "" = p ∧ i < prompts.length
  acct : ∀ w i, (i, w) ∈ st.pullLog →
    (∃ pr, (i, pr) ∈ st.results) ∨ (∃ p k, st.phases w = .working i p k) ∨
    st.phases w = .done true

/-! ## Concrete environments for witnesses and counterexamples -/

/-- Tool activation with every awaited call succeeding. -/
def allOkActivate : ActivateEnv :=
  { textareaClick := .ok (), toolsVisible := .ok (), toolsClick := .ok (),
    createVisible := .ok (), escapePress := .ok (), createClick := .ok () }

/-- A tick observing nothing, with no failures. -/
def quietTickObs : TickObs :=
  { skip := false, updateWaiting := .ok (), alive := true,
    responseComplete := .ok false, elements := .ok [], regather := .ok [] }

/-- Baseline environment: no overlay, all page operations succeed, the
default 120 000 ms generation timeout, and quiet ticks throughout. -/
def baseEnv : GenEnv :=
  { gotoResult := .ok (), overlay := none, textareaVisible := .ok (),
    activate := allOkActivate, textareaClick2 := .ok (),
    textareaFill := .ok (), pressEnter := .ok (),
    generationTimeoutMs := 120000, ticks := fun _ => quietTickObs }

/-- Environment whose first page operation (`page.goto`) raises. -/
def envGotoBoom : GenEnv := { baseEnv with gotoResult := .error "boom" }

/-- A visible 512×512 image element whose `src` reads back as a URL. -/
def elGood : ElObs :=
  { visible := .ok true, dims := .ok (512, 512),
    src := .ok (some "https://lh3.googleusercontent.com/gen1") }

/-- Environment whose every tick offers one qualifying, collectable
asset. -/
def envAsset6 : GenEnv :=
  { baseEnv with ticks := fun _ => { quietTickObs with elements := .ok [elGood] } }

/-- Same observable situation as `envAsset6`, used by a different run. -/
def envAsset5 : GenEnv :=
  { baseEnv with ticks := fun _ => { quietTickObs with elements := .ok [elGood] } }

/-- A visible 512×512 image element whose `src` attribute reads back as
`None` (the attribute disappeared between `locator.all()` and
`get_attribute`, as happens when the page re-renders mid-tick). -/
def elNoSrc : ElObs :=
  { visible := .ok true, dims := .ok (512, 512), src := .ok none }

/-- Tick 0 shows the turn-complete indicator together with one visible,
large-enough asset whose `src` cannot be collected. -/
def envQualButNoSrc : GenEnv :=
  { baseEnv with ticks := fun _ =>
      { quietTickObs with responseComplete := .ok true, elements := .ok [elNoSrc] } }

/-- Tick 0 shows the turn-complete indicator with zero image elements. -/
def envTurnCompleteEmpty : GenEnv :=
  { baseEnv with ticks := fun _ =>
      { quietTickObs with responseComplete := .ok true } }

/-- Environment for a fully successful run (used to inspect the order of
the recorded events). -/
def envHappy : GenEnv :=
  { baseEnv with ticks := fun _ => { quietTickObs with elements := .ok [elGood] } }

/-- Environment where the 30-second wait for the prompt textarea times
out. -/
def envNoTextarea : GenEnv :=
  { baseEnv with textareaVisible := .error "Timeout 30000ms exceeded" }

/-- A successful generation outcome used by worker scripts. -/
def okGen : GenerationResult :=
  { prompt := "", image_urls := ["https://lh3.googleusercontent.com/gen1"],
    success := true, error := none }

/-- Worker scripts: worker 0 crashes while processing its first pulled
job; every other worker finishes every job successfully. -/
def crashFirstScripts : Nat → WorkerScript := fun w =>
  if w = 0 then { setupFails := none, jobs := fun _ => .crash "browser died" }
  else { setupFails := none, jobs := fun _ => .finish okGen ["out/f.png"] }

/-- Worker scripts with no failures at all. -/
def steadyScripts : Nat → WorkerScript := fun _ =>
  { setupFails := none, jobs := fun _ => .finish okGen ["out/f.png"] }

/-- Cooperative schedule interleaving two workers until both exit;
worker 0 crashes on its first job under `crashFirstScripts`. -/
def schedTwo : List Nat := [0, 1, 0, 1, 0, 1, 1, 1, 1]

/-- Schedule letting a single worker drain a three-prompt queue. -/
def schedOne : List Nat := [0, 0, 0, 0, 0, 0, 0, 0]

/-- A visible but sub-threshold (100×100) decorative image element. -/
def elSmall : ElObs :=
  { visible := .ok true, dims := .ok (100, 100),
    src := .ok (some "https://lh3.googleusercontent.com/avatar") }

/-- A large element that is not visible. -/
def elInvisible : ElObs :=
  { visible := .ok false, dims := .ok (1024, 1024),
    src := .ok (some "https://lh3.googleusercontent.com/hidden") }

/-- Every tick offers only non-qualifying elements (a sub-threshold
avatar and an invisible element) and the completion sample itself
throws — a run in which no qualifying asset and no completion indicator
is ever observed, with UI chrome present throughout. -/
def envNoisy : GenEnv :=
  { baseEnv with ticks := fun _ =>
      { skip := false, updateWaiting := .ok (), alive := true,
        responseComplete := .error "sampling failed",
        elements := .ok [elSmall, elInvisible], regather := .ok [] } }

/-- Tick 0 shows only a sub-threshold element; from tick 1 on the
turn-complete indicator is visible, still with no qualifying asset — the
indicator is first observed at tick 1, not tick 0. -/
def envLateTC : GenEnv :=
  { baseEnv with ticks := fun k =>
      if k = 0 then { quietTickObs with elements := .ok [elSmall] }
      else
        { quietTickObs with
            responseComplete := .ok true, elements := .ok [elSmall] } }

/-! ## Lemmas about `ImageGenerator.generate` -/

/-- The result of `generate` is the body's result with exceptions mapped
to failures, and the events are the body's events. -/
lemma generate_eq (env : GenEnv) (p : String) :
    (generate env p).1 = (match (genBody env p).1 with
      | .ok r => r
      | .error e => { prompt := p, image_urls := [], success := false,
                      error := some e }) ∧
    (generate env p).2 = (genBody env p).2 := by
  unfold generate
  rcases h : genBody env p with ⟨f, evs⟩
  cases f <;> simp

/-- The code after the loop produces a well-formed result. -/
lemma finishPoll_resultOk (p : String) (t : Nat) (urls : List String) :
    ResultOk (finishPoll p t urls) := by
  unfold finishPoll ResultOk
  split <;> simp_all

/-- Every normal return of the polling loop is well-formed. -/
lemma pollLoop_resultOk (env : GenEnv) (p : String) :
    ∀ fuel k urls g, (pollLoop env p fuel k urls).1 = .ok g → ResultOk g := by
  intro fuel
  induction fuel with
  | zero =>
    intro k urls g h
    simp only [pollLoop] at h
    obtain rfl : finishPoll p env.generationTimeoutMs urls = g :=
      by simpa using h
    exact finishPoll_resultOk _ _ _
  | succ n ih =>
    intro k urls g h
    simp only [pollLoop] at h
    rcases hg : overlayTickGate env.overlay (env.ticks k) with e | b
    · rw [hg] at h; simp at h
    · rw [hg] at h
      cases b
      · simp only [] at h
        by_cases ha : (env.ticks k).alive
        · rw [if_pos ha] at h
          rcases he : (env.ticks k).elements with e | els
          · rw [he] at h
            simp at h
            obtain rfl := h.symm
            constructor <;> simp
          · rw [he] at h
            simp only [] at h
            by_cases hu : collectImages els urls = []
            · rw [if_pos hu] at h
              by_cases hrc : rcSample (env.ticks k) = true
              · rw [if_pos hrc] at h
                simp at h
                obtain rfl := h.symm
                constructor <;> simp
              · rw [if_neg hrc] at h
                exact ih _ _ _ h
            · rw [if_neg hu] at h
              simp at h
              obtain rfl := h.symm
              exact finishPoll_resultOk _ _ _
        · rw [if_neg ha] at h
          simp at h
          obtain rfl := h.symm
          constructor <;> simp
      · simp at h
        obtain rfl := h.symm
        constructor <;> simp

/-- Shape of a `generate` body run: either it exits before the prompt is
submitted — no sampling, submission or liveness events, and any normal
result is a failure — or it reaches the polling loop, whose outcome it
returns, after the events `goto`, `authCheck true`, `activateTool true`,
`submit`. -/
lemma genBody_shape (env : GenEnv) (p : String) :
    ((∀ us, GenEv.sampled us ∉ (genBody env p).2) ∧
     GenEv.submit ∉ (genBody env p).2 ∧
     (∀ b, GenEv.livenessCheck b ∉ (genBody env p).2) ∧
     (∀ g, (genBody env p).1 = .ok g → ResultOk g ∧ g.success = false)) ∨
    ((genBody env p).1 = (pollLoop env p (numTicks env.generationTimeoutMs) 0 []).1 ∧
     (genBody env p).2 = [.goto, .authCheck true, .activateTool true, .submit]
        ++ (pollLoop env p (numTicks env.generationTimeoutMs) 0 []).2) := by
  unfold genBody
  rcases env.gotoResult with e | u
  · left; simp
  · cases u
    rcases overlayStep env.overlay (fun o => o.updateLoading) with e | u
    · left; simp
    · cases u
      rcases env.textareaVisible with e | u
      · left
        refine ⟨by simp, by simp, by simp, ?_⟩
        intro g hg
        simp at hg
        obtain rfl := hg.symm
        exact ⟨⟨by simp, by simp⟩, rfl⟩
      · cases u
        rcases overlayStep env.overlay (fun o => o.updateActivating) with e | u
        · left; simp
        · cases u
          rcases activate_create_images_tool env.activate with e | msg
          · left; simp
          · rcases msg with _ | msg
            · rcases overlayStep env.overlay (fun o => o.updateSending) with e | u
              · left; simp
              · cases u
                rcases env.textareaClick2 with e | u
                · left; simp
                · cases u
                  rcases env.textareaFill with e | u
                  · left; simp
                  · cases u
                    rcases env.pressEnter with e | u
                    · left; simp
                    · cases u
                      right
                      exact ⟨rfl, rfl⟩
            · left
              refine ⟨by simp, by simp, by simp, ?_⟩
              intro g hg
              simp at hg
              obtain rfl := hg.symm
              exact ⟨⟨by simp, by simp⟩, rfl⟩

/-- Every result `generate` returns is well-formed: success carries the
collected URLs, failure carries an error message and no URLs. -/
lemma generate_resultOk (env : GenEnv) (p : String) :
    ResultOk (generate env p).1 := by
  have hgen := (generate_eq env p).1
  rcases hb : (genBody env p).1 with e | r
  · rw [hb] at hgen
    rw [hgen]
    exact ⟨by simp, by simp⟩
  · rw [hb] at hgen
    simp only [] at hgen
    rw [hgen]
    rcases genBody_shape env p with ⟨_, _, _, hok⟩ | ⟨h1, _⟩
    · exact (hok r hb).1
    · rw [h1] at hb
      exact pollLoop_resultOk env p _ _ _ _ hb

/-- C3: `ImageGenerator.generate` always returns a result object — every
returned result is either a success or a failure carrying an error
message — and never raises past its boundary: any exception thrown inside
its body is caught and mapped to a failure result carrying the
exception's message (generator.py lines 112–287). -/
theorem C3_generate_never_raises (env : GenEnv) (p : String) :
    ((generate env p).1.success = true ∨ ∃ m, (generate env p).1.error = some m) ∧
    (∀ m, (genBody env p).1 = .error m →
      (generate env p).1 = { prompt := p, image_urls := [], success := false,
                             error := some m }) := by
  constructor
  · rcases hs : (generate env p).1.success with _ | _
    · have h := (generate_resultOk env p).2.mp hs
      rcases Option.ne_none_iff_exists'.mp h with ⟨m, hm⟩
      exact Or.inr ⟨m, hm⟩
    · exact Or.inl rfl
  · intro m hm
    have hg := (generate_eq env p).1
    rw [hm] at hg
    simpa using hg

/-- Witness for C3: with a concrete environment whose `page.goto` raises
`"boom"`, the body errors and `generate` returns the mapped failure. -/
theorem C3_generate_never_raises_witness :
    (genBody envGotoBoom "p").1 = .error "boom" ∧
    (generate envGotoBoom "p").1 = { prompt := "p", image_urls := [],
                                     success := false, error := some "boom" } :=
  ⟨rfl, (C3_generate_never_raises envGotoBoom "p").2 "boom" rfl⟩

/-- C10: a `GenerationResult` returned by `ImageGenerator.generate` has
`success = True` if and only if its `image_urls` list is non-empty: every
failure path returns an empty asset list, and the success path returns at
least one collected URL (generator.py lines 14–21, 269–280). -/
theorem C10_success_iff_nonempty_urls (env : GenEnv) (p : String) :
    (generate env p).1.success = true ↔ (generate env p).1.image_urls ≠ [] :=
  (generate_resultOk env p).1

/-- A URL added by one element's collection step was already collected or
comes from a visible, large-enough element whose `src` read back as that
URL. -/
lemma mem_collectOne (urls : List String) (el : ElObs) (u : String)
    (h : u ∈ collectOne urls el) : u ∈ urls ∨ qualifiesFor el u := by
  unfold collectOne at h
  rcases hv : el.visible with e | b
  · rw [hv] at h; exact Or.inl h
  · rw [hv] at h
    cases b
    · exact Or.inl h
    · rcases hd : el.dims with e | wh
      · rw [hd] at h; exact Or.inl h
      · rw [hd] at h
        rcases wh with ⟨w, ht⟩
        simp only [] at h
        by_cases hwh : 256 ≤ w ∧ 256 ≤ ht
        · rw [if_pos hwh] at h
          rcases hsrc : el.src with e | s
          · rw [hsrc] at h; exact Or.inl h
          · rw [hsrc] at h
            rcases s with _ | s
            · exact Or.inl h
            · simp only [] at h
              by_cases hss : s ≠ "" ∧ s ∉ urls
              · rw [if_pos hss] at h
                rcases List.mem_append.mp h with hin | hin
                · exact Or.inl hin
                · simp at hin
                  subst hin
                  exact Or.inr ⟨hv, ⟨w, ht, hd, hwh.1, hwh.2⟩, hsrc⟩
              · rw [if_neg hss] at h; exact Or.inl h
        · rw [if_neg hwh] at h; exact Or.inl h

/-- A URL in a collection pass's output was already collected or comes
from a qualifying element of that pass. -/
lemma mem_collectImages (els : List ElObs) (urls : List String) (u : String)
    (h : u ∈ collectImages els urls) :
    u ∈ urls ∨ ∃ el ∈ els, qualifiesFor el u := by
  induction els generalizing urls with
  | nil => exact Or.inl h
  | cons el t ih =>
    have h' : u ∈ collectImages t (collectOne urls el) := h
    rcases ih _ h' with hin | ⟨el', hel', hq⟩
    · rcases mem_collectOne urls el u hin with hin' | hq
      · exact Or.inl hin'
      · exact Or.inr ⟨el, List.mem_cons_self _ _, hq⟩
    · exact Or.inr ⟨el', List.mem_cons_of_mem _ hel', hq⟩

/-- A collection pass only appends URLs. -/
lemma collectOne_extends (urls : List String) (el : ElObs) :
    ∃ add, collectOne urls el = urls ++ add := by
  unfold collectOne
  rcases el.visible with e | b
  · exact ⟨[], by simp⟩
  · cases b
    · exact ⟨[], by simp⟩
    · rcases el.dims with e | ⟨w, ht⟩
      · exact ⟨[], by simp⟩
      · dsimp only
        by_cases hwh : 256 ≤ w ∧ 256 ≤ ht
        · rw [if_pos hwh]
          rcases el.src with e | s
          · exact ⟨[], by simp⟩
          · rcases s with _ | s
            · exact ⟨[], by simp⟩
            · dsimp only
              by_cases hss : s ≠ "" ∧ s ∉ urls
              · rw [if_pos hss]; exact ⟨[s], rfl⟩
              · rw [if_neg hss]; exact ⟨[], by simp⟩
        · rw [if_neg hwh]; exact ⟨[], by simp⟩

/-- A collection pass over a whole element list only appends URLs. -/
lemma collectImages_extends (els : List ElObs) (urls : List String) :
    ∃ add, collectImages els urls = urls ++ add := by
  induction els generalizing urls with
  | nil => exact ⟨[], by simp [collectImages]⟩
  | cons el t ih =>
    obtain ⟨a0, h0⟩ := collectOne_extends urls el
    obtain ⟨a1, h1⟩ := ih (collectOne urls el)
    refine ⟨a0 ++ a1, ?_⟩
    have : collectImages (el :: t) urls = collectImages t (collectOne urls el) := rfl
    rw [this, h1, h0, List.append_assoc]

/-- Every URL of a successful polling-loop outcome was carried in from
the accumulator or collected from a qualifying element of some tick. -/
lemma pollLoop_success_sources (env : GenEnv) (p : String) :
    ∀ fuel k urls g, (pollLoop env p fuel k urls).1 = .ok g → g.success = true →
    ∀ u ∈ g.image_urls,
      u ∈ urls ∨ ∃ k' el, el ∈ tickEls env k' ∧ qualifiesFor el u := by
  intro fuel
  induction fuel with
  | zero =>
    intro k urls g h hs u hu
    simp only [pollLoop] at h
    obtain rfl : finishPoll p env.generationTimeoutMs urls = g := by simpa using h
    unfold finishPoll at hs hu
    by_cases hn : urls = []
    · rw [if_pos hn] at hs; simp at hs
    · rw [if_neg hn] at hu; exact Or.inl hu
  | succ n ih =>
    intro k urls g h hs u hu
    simp only [pollLoop] at h
    rcases hg : overlayTickGate env.overlay (env.ticks k) with e | b
    · rw [hg] at h; simp at h
    · rw [hg] at h
      cases b
      · simp only [] at h
        by_cases ha : (env.ticks k).alive
        · rw [if_pos ha] at h
          rcases he : (env.ticks k).elements with e | els
          · rw [he] at h; simp at h; obtain rfl := h.symm; simp at hs
          · rw [he] at h
            simp only [] at h
            by_cases hu2 : collectImages els urls = []
            · rw [if_pos hu2] at h
              by_cases hrc : rcSample (env.ticks k) = true
              · rw [if_pos hrc] at h; simp at h; obtain rfl := h.symm; simp at hs
              · rw [if_neg hrc] at h
                rcases ih _ _ _ h hs u hu with hin | hsrc
                · rcases mem_collectImages els urls u hin with h1 | ⟨el, hel, hq⟩
                  · exact Or.inl h1
                  · refine Or.inr ⟨k, el, ?_, hq⟩
                    unfold tickEls
                    rw [he]
                    exact List.mem_append_left _ hel
                · exact Or.inr hsrc
            · rw [if_neg hu2] at h
              rcases hr : (env.ticks k).regather with e | els2
              · rw [hr] at h
                simp at h
                obtain rfl := h.symm
                unfold finishPoll at hu
                rw [if_neg hu2] at hu
                dsimp only at hu
                rcases mem_collectImages els urls u hu with h1 | ⟨el, hel, hq⟩
                · exact Or.inl h1
                · refine Or.inr ⟨k, el, ?_, hq⟩
                  unfold tickEls
                  rw [he]
                  exact List.mem_append_left _ hel
              · rw [hr] at h
                simp at h
                obtain rfl := h.symm
                have hne : collectImages els2 (collectImages els urls) ≠ [] := by
                  obtain ⟨add, hadd⟩ :=
                    collectImages_extends els2 (collectImages els urls)
                  rw [hadd]
                  intro hemp
                  exact hu2 (List.append_eq_nil.mp hemp).1
                unfold finishPoll at hu
                rw [if_neg hne] at hu
                dsimp only at hu
                rcases mem_collectImages els2 _ u hu with h1 | ⟨el, hel, hq⟩
                · rcases mem_collectImages els urls u h1 with h2 | ⟨el, hel, hq⟩
                  · exact Or.inl h2
                  · refine Or.inr ⟨k, el, ?_, hq⟩
                    unfold tickEls
                    rw [he]
                    exact List.mem_append_left _ hel
                · refine Or.inr ⟨k, el, ?_, hq⟩
                  unfold tickEls
                  rw [hr]
                  exact List.mem_append_right _ hel
        · rw [if_neg ha] at h; simp at h; obtain rfl := h.symm; simp at hs
      · simp at h; obtain rfl := h.symm; simp at hs

/-- If some executed tick's first collection pass, starting from the
empty accumulator, produced at least one URL, the loop resolves to a
success. -/
lemma pollLoop_sampled_success (env : GenEnv) (p : String) :
    ∀ fuel k us, GenEv.sampled us ∈ (pollLoop env p fuel k []).2 → us ≠ [] →
    ∃ g, (pollLoop env p fuel k []).1 = .ok g ∧ g.success = true ∧
      g.error = none := by
  intro fuel
  induction fuel with
  | zero =>
    intro k us h hne
    simp only [pollLoop] at h
    simp at h
  | succ n ih =>
    intro k us h hne
    simp only [pollLoop] at h ⊢
    rcases hg : overlayTickGate env.overlay (env.ticks k) with e | b
    · rw [hg] at h; simp at h
    · rw [hg] at h
      cases b
      · simp only [] at h ⊢
        by_cases ha : (env.ticks k).alive
        · rw [if_pos ha] at h ⊢
          rcases he : (env.ticks k).elements with e | els
          · rw [he] at h; simp at h
          · rw [he] at h
            simp only [] at h ⊢
            by_cases hu2 : collectImages els [] = []
            · rw [if_pos hu2] at h ⊢
              by_cases hrc : rcSample (env.ticks k) = true
              · rw [if_pos hrc] at h
                rw [hu2] at h
                simp at h
                exact absurd h hne
              · rw [if_neg hrc] at h ⊢
                rw [hu2] at h ⊢
                simp at h
                rcases h with h | h
                · exact absurd h hne
                · exact ih (k + 1) us h hne
            · rw [if_neg hu2] at h ⊢
              have hne3 : (match (env.ticks k).regather with
                  | .error _ => collectImages els []
                  | .ok els2 => collectImages els2 (collectImages els [])) ≠ [] := by
                rcases hr : (env.ticks k).regather with e | els2
                · exact hu2
                · dsimp only
                  obtain ⟨add, hadd⟩ :=
                    collectImages_extends els2 (collectImages els [])
                  rw [hadd]
                  intro hemp
                  exact hu2 (List.append_eq_nil.mp hemp).1
              refine ⟨_, rfl, ?_, ?_⟩ <;>
                · unfold finishPoll
                  rw [if_neg hne3]
        · rw [if_neg ha] at h; simp at h
      · simp at h

/-- C6: every URL in a Success result's `image_urls` list was collected
from a visible asset element whose natural width and natural height are
both at least the 256-pixel minimum dimension; an asset below that
threshold is never included in a Success outcome's asset list
(generator.py lines 220–258). -/
theorem C6_success_urls_qualify (env : GenEnv) (p : String)
    (hs : (generate env p).1.success = true) :
    ∀ u ∈ (generate env p).1.image_urls,
      ∃ k el, el ∈ tickEls env k ∧ qualifiesFor el u := by
  intro u hu
  have hgen := (generate_eq env p).1
  rcases hb : (genBody env p).1 with e | r
  · rw [hb] at hgen
    simp only [] at hgen
    rw [hgen] at hs
    simp at hs
  · rw [hb] at hgen
    simp only [] at hgen
    rcases genBody_shape env p with ⟨_, _, _, hok⟩ | ⟨h1, _⟩
    · rw [hgen] at hs
      rw [(hok r hb).2] at hs
      exact absurd hs (by simp)
    · rw [h1] at hb
      rw [hgen] at hs hu
      rcases pollLoop_success_sources env p _ _ _ _ hb hs u hu with hin | hsrc
      · simp at hin
      · exact hsrc

/-- Witness for C6: a run collecting one qualifying 512×512 asset
succeeds, and the theorem traces its URL back to a qualifying element. -/
theorem C6_success_urls_qualify_witness :
    (generate envAsset6 "p").1.success = true ∧
    (∃ k el, el ∈ tickEls envAsset6 k ∧
      qualifiesFor el "https://lh3.googleusercontent.com/gen1") :=
  ⟨by decide,
   C6_success_urls_qualify envAsset6 "p" (by decide)
     "https://lh3.googleusercontent.com/gen1" (by decide)⟩

/-- C5 counterexample: in the run `envQualButNoSrc`, tick 0 observes a
qualifying asset in the claim's sense — visible, 512×512 — but its `src`
attribute reads back as `None`, so nothing is collected, and with the
turn-complete indicator also visible the job resolves to the
text-only/Rejected outcome instead of Success.  This refutes the claim as
stated. -/
theorem C5_counterexample :
    elNoSrc ∈ tickEls envQualButNoSrc 0 ∧
    elNoSrc.visible = .ok true ∧ elNoSrc.dims = .ok (512, 512) ∧
    (generate envQualButNoSrc "p").1.success = false ∧
    (generate envQualButNoSrc "p").1.error = some textOnlyMsg :=
  ⟨by decide, rfl, rfl, by decide, by decide⟩

/-- C5 (amended): in any polling run in which some tick's collection pass
gathered at least one qualifying asset whose `src` attribute was also
read back as a non-empty URL (equivalently, some tick's sampled URL list
is non-empty), the job resolves Success — never the text-only/Rejected
outcome, even if the turn-complete indicator is also visible
(generator.py lines 196–267). -/
theorem C5_amended_sampled_success (env : GenEnv) (p : String)
    (us : List String) (h : GenEv.sampled us ∈ (generate env p).2)
    (hne : us ≠ []) :
    (generate env p).1.success = true ∧ (generate env p).1.error = none := by
  have hev := (generate_eq env p).2
  rw [hev] at h
  rcases genBody_shape env p with ⟨hns, _, _, _⟩ | ⟨h1, h2⟩
  · exact absurd h (hns us)
  · rw [h2] at h
    simp at h
    obtain ⟨g, hok, hsucc, herr⟩ := pollLoop_sampled_success env p _ _ us h hne
    have hgen := (generate_eq env p).1
    rw [h1, hok] at hgen
    simp only [] at hgen
    rw [hgen]
    exact ⟨hsucc, herr⟩

/-- Witness for C5 (amended): a concrete run whose first tick samples one
collectable qualifying asset resolves Success. -/
theorem C5_amended_sampled_success_witness :
    (generate envAsset5 "p").1.success = true ∧
    (generate envAsset5 "p").1.error = none :=
  C5_amended_sampled_success envAsset5 "p"
    ["https://lh3.googleusercontent.com/gen1"] (by decide) (by decide)

/-- With every page operation succeeding (and any attached overlay's
pre-loop updates returning normally), the run reaches the polling loop,
whose outcome it returns after the pre-loop events. -/
lemma genBody_reaches_loop (env : GenEnv) (p : String)
    (hov : overlayPreOk env) (hpre : preOk env) :
    genBody env p =
      ((pollLoop env p (numTicks env.generationTimeoutMs) 0 []).1,
       [.goto, .authCheck true, .activateTool true, .submit]
         ++ (pollLoop env p (numTicks env.generationTimeoutMs) 0 []).2) := by
  obtain ⟨h1, h2, h3, h4, h5, h6, h7, h8, h9, h10⟩ := hpre
  have hL : overlayStep env.overlay (fun o => o.updateLoading) = .ok () := by
    rcases ho : env.overlay with _ | o
    · rfl
    · exact (hov o ho).1
  have hA : overlayStep env.overlay (fun o => o.updateActivating) = .ok () := by
    rcases ho : env.overlay with _ | o
    · rfl
    · exact (hov o ho).2.1
  have hS : overlayStep env.overlay (fun o => o.updateSending) = .ok () := by
    rcases ho : env.overlay with _ | o
    · rfl
    · exact (hov o ho).2.2
  have hact : activate_create_images_tool env.activate = .ok none := by
    unfold activate_create_images_tool
    rw [h3]
    dsimp only
    rw [h4]
    dsimp only
    rw [h5]
    dsimp only
    rw [h6]
    dsimp only
    rw [h7]
  unfold genBody
  rw [h1]
  dsimp only
  rw [hL]
  dsimp only
  rw [h2]
  dsimp only
  rw [hA]
  dsimp only
  rw [hact]
  dsimp only
  rw [hS]
  dsimp only
  rw [h8]
  dsimp only
  rw [h9]
  dsimp only
  rw [h10]

/-- On ticks that observe no qualifying asset and whose completion sample
yields false, the loop runs its full fuel, performing one liveness check
per tick, and resolves to the timeout failure. -/
lemma pollLoop_noSignal (env : GenEnv) (p : String)
    (hgate : ∀ k, overlayTickGate env.overlay (env.ticks k) = .ok false)
    (hq : ∀ k, noAssetTick (env.ticks k))
    (hrc : ∀ k, rcSample (env.ticks k) = false) :
    ∀ fuel k,
      (pollLoop env p fuel k []).1 =
        .ok { prompt := p, image_urls := [], success := false,
              error := some (timeoutMsg env.generationTimeoutMs) } ∧
      (pollLoop env p fuel k []).2.countP isLivenessEv = fuel := by
  intro fuel
  induction fuel with
  | zero =>
    intro k
    constructor
    · simp only [pollLoop]
      simp [finishPoll]
    · simp only [pollLoop]
      rfl
  | succ n ih =>
    intro k
    obtain ⟨ha, els, hel, hcol⟩ := hq k
    have hstep : pollLoop env p (n + 1) k [] =
        ((pollLoop env p n (k + 1) []).1,
         [GenEv.livenessCheck true, GenEv.sampled []]
           ++ (pollLoop env p n (k + 1) []).2) := by
      simp only [pollLoop]
      rw [hgate k]
      dsimp only
      rw [if_pos ha, hel]
      dsimp only
      rw [hcol, hrc k]
      simp
    rw [hstep]
    refine ⟨(ih (k + 1)).1, ?_⟩
    simp [List.countP_append, List.countP_cons, List.countP_nil, isLivenessEv]
    rw [(ih (k + 1)).2]

/-- C7: the polling loop of `ImageGenerator.generate` terminates — in any
run in which no qualifying asset is ever observed (each tick's element
sample may offer arbitrarily many invisible, sub-threshold or
src-less elements; none is collected) and no completion indicator is ever
observed (the per-tick sample yields false, whether the feedback button
was absent or the sampling itself threw), `generate` returns a Failure
reporting a timeout once elapsed polling time reaches the configured
generation timeout, after exactly ⌈timeout / poll-interval⌉
liveness-checked ticks; it never polls forever.  Runs that stop polling
for a different reason — dead page, element sample throwing, user skip —
resolve to their own distinct Failures, not a timeout (generator.py lines
163–274). -/
theorem C7_timeout_bounded (env : GenEnv) (p : String)
    (hov : overlayPreOk env) (hpre : preOk env)
    (hgate : ∀ k, overlayTickGate env.overlay (env.ticks k) = .ok false)
    (hq : ∀ k, noAssetTick (env.ticks k))
    (hrc : ∀ k, rcSample (env.ticks k) = false) :
    (generate env p).1 =
      { prompt := p, image_urls := [], success := false,
        error := some (timeoutMsg env.generationTimeoutMs) } ∧
    (generate env p).2.countP isLivenessEv = numTicks env.generationTimeoutMs := by
  have hb := genBody_reaches_loop env p hov hpre
  obtain ⟨hl1, hl2⟩ :=
    pollLoop_noSignal env p hgate hq hrc (numTicks env.generationTimeoutMs) 0
  constructor
  · have hgen := (generate_eq env p).1
    rw [hb] at hgen
    dsimp only at hgen
    rw [hl1] at hgen
    exact hgen
  · have hev := (generate_eq env p).2
    rw [hb] at hev
    dsimp only at hev
    rw [hev]
    simp [List.countP_append, List.countP_cons, List.countP_nil, isLivenessEv]
    rw [hl2]

/-- Witness for C7: a run whose every tick offers a visible 100×100
avatar and an invisible large element — none qualifying — and whose
completion sampling throws each tick times out after exactly
`numTicks 120000 = 24` polled ticks. -/
theorem C7_timeout_bounded_witness :
    (generate envNoisy "p").1 =
      { prompt := "p", image_urls := [], success := false,
        error := some (timeoutMsg 120000) } ∧
    (generate envNoisy "p").2.countP isLivenessEv = numTicks 120000 :=
  C7_timeout_bounded envNoisy "p" (fun _ ho => nomatch ho)
    ⟨rfl, rfl, rfl, rfl, rfl, rfl, rfl, rfl, rfl, rfl⟩
    (fun _ => rfl)
    (fun _ => ⟨rfl, [elSmall, elInvisible], rfl, by decide⟩)
    (fun _ => rfl)

/-- A detection returned by the phrase loop names a phrase that occurs in
the lowercased page text. -/
lemma findRejection_mem (body : String) (bodyLower : List Char) :
    ∀ phs m, findRejection body bodyLower phs = some m →
      ∃ ph ∈ phs, subOccurs (lowerStr ph.data) bodyLower = true := by
  intro phs
  induction phs with
  | nil => intro m h; simp [findRejection] at h
  | cons ph rest ih =>
    intro m h
    unfold findRejection at h
    by_cases hc : subOccurs (lowerStr ph.data) bodyLower = true
    · exact ⟨ph, List.mem_cons_self _ _, hc⟩
    · rw [if_neg hc] at h
      obtain ⟨ph', hmem, hc'⟩ := ih m h
      exact ⟨ph', List.mem_cons_of_mem _ hmem, hc'⟩

/-- C8 counterexample: the claim as stated is false.  In
`FlowImageGenerator` — the only place a rejection-phrase scan exists —
the classification between a content-policy rejection and a timeout *does*
depend on finding a phrase: with no phrase in the page text the same
zero-asset situation is classified as a timeout.  And in
`ImageGenerator.generate`, the turn-complete-with-zero-assets path
returns a fixed message with no page-text scan at all. -/
theorem C8_counterexample :
    (flowNoImagesOutcome "p" (.ok "All good here") 120000).error
      = some (timeoutMsg 120000) ∧
    (flowNoImagesOutcome "p" (.ok "content policy") 120000).error
      = some "Content policy rejection: content policy" ∧
    (generate envTurnCompleteEmpty "p").1.error = some textOnlyMsg ∧
    (generate envTurnCompleteEmpty "p").1.success = false :=
  ⟨by decide, by decide, by decide, by decide⟩

/-- If every gate up to relative tick `j` passes, each of those ticks
observes no qualifying asset, and tick `j`'s completion sample is true,
the loop (entered with an empty accumulator) resolves to the fixed
text-only failure — at tick `j`, or at the first earlier tick whose
indicator already fired. -/
lemma pollLoop_turnComplete (env : GenEnv) (p : String) :
    ∀ fuel k j, j < fuel →
    (∀ m, m ≤ j → overlayTickGate env.overlay (env.ticks (k + m)) = .ok false) →
    (∀ m, m ≤ j → noAssetTick (env.ticks (k + m))) →
    rcSample (env.ticks (k + j)) = true →
    (pollLoop env p fuel k []).1 =
      .ok { prompt := p, image_urls := [], success := false,
            error := some textOnlyMsg } := by
  intro fuel
  induction fuel with
  | zero =>
    intro k j hj _ _ _
    exact absurd hj (Nat.not_lt_zero j)
  | succ n ih =>
    intro k j hj hgate hq hrc
    obtain ⟨ha, els, hel, hcol⟩ := hq 0 (Nat.zero_le j)
    have ha' : (env.ticks k).alive = true := ha
    have hel' : (env.ticks k).elements = .ok els := hel
    have hg0 : overlayTickGate env.overlay (env.ticks k) = .ok false :=
      hgate 0 (Nat.zero_le j)
    by_cases hrck : rcSample (env.ticks k) = true
    · -- the indicator fires at this tick with nothing collected
      simp only [pollLoop]
      rw [hg0]
      dsimp only
      rw [if_pos ha', hel']
      dsimp only
      rw [hcol]
      simp [hrck]
    · -- nothing observed here: the indicator tick lies further on
      rcases j with _ | m
      · exact absurd hrc hrck
      · have hred : (pollLoop env p (n + 1) k []).1 =
            (pollLoop env p n (k + 1) []).1 := by
          simp only [pollLoop]
          rw [hg0]
          dsimp only
          rw [if_pos ha', hel']
          dsimp only
          rw [hcol]
          simp [hrck]
        rw [hred]
        refine ih (k + 1) m (by omega) ?_ ?_ ?_
        · intro m' hm'
          have hg := hgate (m' + 1) (by omega)
          have heq : k + (m' + 1) = k + 1 + m' := by omega
          rw [heq] at hg
          exact hg
        · intro m' hm'
          have hqq := hq (m' + 1) (by omega)
          have heq : k + (m' + 1) = k + 1 + m' := by omega
          rw [heq] at hqq
          exact hqq
        · have heq : k + (m + 1) = k + 1 + m := by omega
          rw [heq] at hrc
          exact hrc

/-- C8 (amended): whenever `ImageGenerator.generate` observes the
turn-complete indicator with zero qualifying assets — at any tick `j` of
a run that reaches it, with arbitrary non-qualifying elements on every
tick up to and including `j` — it classifies the job as a
text-only/content-policy refusal (not a timeout) with a fixed error
message and no page-text scan; the rejection-phrase scan lives in
`FlowImageGenerator`, where it runs after the polling loop ends with zero
new images — there a found phrase supplies the error detail, and the
classification (rejection vs timeout) depends on finding a phrase
(generator.py lines 261–267; flow_generator.py lines 505–543, 695–711). -/
theorem C8_amended_rejection_classification :
    (∀ env p j, overlayPreOk env → preOk env →
      j < numTicks env.generationTimeoutMs →
      (∀ m, m ≤ j → overlayTickGate env.overlay (env.ticks m) = .ok false) →
      (∀ m, m ≤ j → noAssetTick (env.ticks m)) →
      rcSample (env.ticks j) = true →
      (generate env p).1 = { prompt := p, image_urls := [], success := false,
                             error := some textOnlyMsg }) ∧
    (∀ p b t, (flowNoImagesOutcome p b t).error
        = some ((detect_content_rejection b).getD (timeoutMsg t))) ∧
    (∀ body m, detect_content_rejection (.ok body) = some m →
      ∃ ph ∈ rejectionPhrases,
        subOccurs (lowerStr ph.data) (lowerStr body.data) = true) := by
  refine ⟨?_, ?_, ?_⟩
  · intro env p j hov hpre hj hgate hq hrc
    have hb := genBody_reaches_loop env p hov hpre
    have hloop := pollLoop_turnComplete env p
        (numTicks env.generationTimeoutMs) 0 j hj
      (fun m hm => by rw [Nat.zero_add]; exact hgate m hm)
      (fun m hm => by rw [Nat.zero_add]; exact hq m hm)
      (by rw [Nat.zero_add]; exact hrc)
    have hgen := (generate_eq env p).1
    rw [hb] at hgen
    dsimp only at hgen
    rw [hloop] at hgen
    exact hgen
  · intro p b t
    unfold flowNoImagesOutcome
    cases detect_content_rejection b <;> simp
  · intro body m h
    exact findRejection_mem body (lowerStr body.data) rejectionPhrases m h

/-- Witness for C8 (amended): in a run whose tick 0 offers only a
sub-threshold avatar and whose turn-complete indicator first appears at
tick 1 (still with no qualifying asset), `generate` returns the fixed
text-only message; and a concrete detection names a phrase occurring in
the page text. -/
theorem C8_amended_rejection_classification_witness :
    (generate envLateTC "p").1 =
      { prompt := "p", image_urls := [], success := false,
        error := some textOnlyMsg } ∧
    (∃ ph ∈ rejectionPhrases,
      subOccurs (lowerStr ph.data) (lowerStr "our content policy".data) = true) := by
  refine ⟨C8_amended_rejection_classification.1 envLateTC "p" 1
      (fun _ ho => nomatch ho)
      ⟨rfl, rfl, rfl, rfl, rfl, rfl, rfl, rfl, rfl, rfl⟩ (by decide)
      (fun _ _ => rfl) (fun m _ => ?_) rfl,
    C8_amended_rejection_classification.2.2 "our content policy"
      "Content policy rejection: our content policy" (by decide)⟩
  rcases m with _ | m'
  · exact ⟨rfl, [elSmall], rfl, by decide⟩
  · exact ⟨rfl, [elSmall], rfl, by decide⟩

/-- C9 counterexample: in a concrete, fully successful run the prompt is
submitted with *no* liveness verification before it — the first
`_is_page_alive` check happens only inside the polling loop, after
submission — refuting the claim that `generate` verifies session
liveness (and then authentication) before the polling loop. -/
theorem C9_counterexample :
    GenEv.submit ∈ (generate envHappy "p").2 ∧
    ((generate envHappy "p").2.takeWhile
        (fun e => !(e == GenEv.submit))).countP isLivenessEv = 0 ∧
    (generate envHappy "p").2.countP isLivenessEv ≠ 0 ∧
    (generate envHappy "p").1.success = true :=
  ⟨by decide, by decide, by decide, by decide⟩

/-- C9 (amended): before the polling loop, a `generate` call performs the
authentication check — the 30-second wait for the prompt textarea, a
defined check distinct from the `_is_page_alive` liveness check — and its
failure yields the "Textarea not found - may not be logged in" Failure
with the prompt never submitted and the polling loop (with its per-tick
liveness checks) never entered; in every run that does submit, the
authentication check passed first.  Liveness is verified only inside the
polling loop, not before it (generator.py lines 70–75, 125–137, 191–196). -/
theorem C9_amended_auth_before_submit :
    (∀ env p e, env.gotoResult = .ok () → overlayLoadOk env →
      env.textareaVisible = .error e →
      (generate env p).1 =
        { prompt := p, image_urls := [], success := false,
          error := some "Textarea not found - may not be logged in" } ∧
      GenEv.submit ∉ (generate env p).2 ∧
      (∀ b, GenEv.livenessCheck b ∉ (generate env p).2)) ∧
    (∀ env p, GenEv.submit ∈ (generate env p).2 →
      GenEv.authCheck true ∈ (generate env p).2) := by
  constructor
  · intro env p e h1 hol h2
    have hov : overlayStep env.overlay (fun o => o.updateLoading) = .ok () := by
      rcases ho : env.overlay with _ | o
      · rfl
      · exact hol o ho
    have hbody : genBody env p =
        (.ok { prompt := p, image_urls := [], success := false,
               error := some "Textarea not found - may not be logged in" },
         [.goto, .authCheck false]) := by
      unfold genBody
      rw [h1]
      dsimp only
      rw [hov]
      dsimp only
      rw [h2]
    have hgen1 := (generate_eq env p).1
    rw [hbody] at hgen1
    dsimp only at hgen1
    have hgen2 := (generate_eq env p).2
    rw [hbody] at hgen2
    refine ⟨hgen1, ?_, ?_⟩
    · rw [hgen2]
      simp
    · intro b
      rw [hgen2]
      simp
  · intro env p hsub
    rcases genBody_shape env p with ⟨_, hnosub, _, _⟩ | ⟨_, h2⟩
    · rw [(generate_eq env p).2] at hsub
      exact absurd hsub hnosub
    · have hev := (generate_eq env p).2
      rw [h2] at hev
      rw [hev]
      simp

/-! ## Lemmas about the worker pool of `run_parallel` -/

/-- A lookup hit names an entry of the results dict. -/
lemma lookupIdx_mem (rs : List (Nat × ParallelResult)) (i : Nat)
    {pr : ParallelResult} (h : lookupIdx rs i = some pr) : (i, pr) ∈ rs := by
  induction rs with
  | nil => simp [lookupIdx] at h
  | cons hd t ih =>
    rcases hd with ⟨j, pr'⟩
    unfold lookupIdx at h
    by_cases hj : j = i
    · subst hj
      rw [if_pos rfl] at h
      obtain rfl : pr' = pr := by simpa using h
      exact List.mem_cons_self _ _
    · rw [if_neg hj] at h
      exact List.mem_cons_of_mem _ (ih h)

/-- Members of the enumeration carry the prompt at their index. -/
lemma mem_enumIdx {l : List String} {e : Nat × String} (h : e ∈ enumIdx l) :
    l.getD e.1 "" = e.2 ∧ e.1 < l.length := by
  unfold enumIdx at h
  rcases List.mem_map.mp h with ⟨i, hi, rfl⟩
  exact ⟨rfl, List.mem_range.mp hi⟩

/-- The enumeration's indices are `0 .. length-1` in order. -/
lemma enumIdx_map_fst (l : List String) :
    (enumIdx l).map Prod.fst = List.range l.length := by
  unfold enumIdx
  rw [List.map_map]
  have h : (Prod.fst ∘ fun i : Nat => (i, l.getD i "")) = id := rfl
  rw [h, List.map_id]

/-- The pool invariant holds for the seeded initial state. -/
lemma poolInit_inv (prompts : List String) : PoolInv prompts (poolInit prompts) := by
  refine ⟨?_, ?_, ?_, ?_, ?_, ?_, ?_⟩
  · intro e he
    exact mem_enumIdx he
  · intro r hr
    simp [poolInit] at hr
  · simp [poolInit]
  · show ((enumIdx prompts).map Prod.fst).Nodup
    rw [enumIdx_map_fst]
    exact List.nodup_range _
  · intro i _ hcon
    simp [poolInit] at hcon
  · intro w i p k h
    simp [poolInit] at h
  · intro w i h
    simp [poolInit] at h

/-- A step that only moves one worker's phase — away from any `working`
phase — preserves the invariant, provided each item the moved worker had
pulled is already recorded unless the new phase is a crash. -/
lemma inv_phase_update {prompts : List String} {st : PoolSt}
    (h : PoolInv prompts st) (w : Nat) (ph' : WPhase)
    (hnw : ∀ i p k, ph' ≠ .working i p k)
    (hold : ∀ i, (i, w) ∈ st.pullLog →
      (∃ pr, (i, pr) ∈ st.results) ∨ ph' = .done true) :
    PoolInv prompts { st with phases := Function.update st.phases w ph' } := by
  refine ⟨h.queue_ok, h.results_ok, h.pull_nodup, h.queue_nodup, h.disj, ?_, ?_⟩
  · intro w' i p k hw'
    dsimp only at hw'
    by_cases hww : w' = w
    · subst hww
      rw [Function.update_same] at hw'
      exact absurd hw' (hnw i p k)
    · rw [Function.update_noteq hww] at hw'
      exact h.working_ok w' i p k hw'
  · intro w' i hpull
    dsimp only at hpull
    by_cases hww : w' = w
    · subst hww
      rcases hold i hpull with hres | hdone
      · exact Or.inl hres
      · refine Or.inr (Or.inr ?_)
        dsimp only
        rw [Function.update_same]
        exact hdone
    · rcases h.acct w' i hpull with hres | ⟨p', k', hwork⟩ | hdone
      · exact Or.inl hres
      · refine Or.inr (Or.inl ⟨p', k', ?_⟩)
        dsimp only
        rw [Function.update_noteq hww]
        exact hwork
      · refine Or.inr (Or.inr ?_)
        dsimp only
        rw [Function.update_noteq hww]
        exact hdone

/-- One worker step preserves the pool invariant. -/
lemma step_inv (names : List String) (scripts : Nat → WorkerScript)
    {prompts : List String} {st : PoolSt} (h : PoolInv prompts st) (w : Nat) :
    PoolInv prompts (account_worker_step names scripts st w) := by
  by_cases hw : w < names.length
  case neg =>
    have hstep : account_worker_step names scripts st w = st := by
      unfold account_worker_step
      rw [if_neg hw]
    rw [hstep]
    exact h
  case pos =>
    rcases hph : st.phases w with _ | _ | ⟨i, p, k⟩ | c
    · -- setup
      rcases hsf : (scripts w).setupFails with _ | msg
      · -- setup succeeds → idle
        have hstep : account_worker_step names scripts st w =
            { st with phases := Function.update st.phases w .idle } := by
          unfold account_worker_step
          rw [if_pos hw, hph, hsf]
        rw [hstep]
        refine inv_phase_update h w .idle (by intro a b c; simp) ?_
        intro j hpull
        rcases h.acct w j hpull with hres | ⟨p', k', hwork⟩ | hdone
        · exact Or.inl hres
        · rw [hph] at hwork; simp at hwork
        · rw [hph] at hdone; simp at hdone
      · -- setup raises → worker dead, crashed
        have hstep : account_worker_step names scripts st w =
            { st with phases := Function.update st.phases w (.done true) } := by
          unfold account_worker_step
          rw [if_pos hw, hph, hsf]
        rw [hstep]
        exact inv_phase_update h w (.done true) (by intro a b c; simp)
          (fun j _ => Or.inr rfl)
    · -- idle: pull or exit
      rcases hq : st.queue with _ | ⟨⟨i, p⟩, rest⟩
      · -- queue empty → exit normally
        have hstep : account_worker_step names scripts st w =
            { st with phases := Function.update st.phases w (.done false) } := by
          unfold account_worker_step
          rw [if_pos hw, hph, hq]
        rw [hstep]
        refine inv_phase_update h w (.done false) (by intro a b c; simp) ?_
        intro j hpull
        rcases h.acct w j hpull with hres | ⟨p', k', hwork⟩ | hdone
        · exact Or.inl hres
        · rw [hph] at hwork; simp at hwork
        · rw [hph] at hdone; simp at hdone
      · -- pull the head entry
        have hstep : account_worker_step names scripts st w =
            { st with queue := rest,
                      phases := Function.update st.phases w
                        (.working i p (st.pulls w)),
                      pulls := Function.update st.pulls w (st.pulls w + 1),
                      pullLog := (i, w) :: st.pullLog } := by
          unfold account_worker_step
          rw [if_pos hw, hph, hq]
        rw [hstep]
        have hhead : (i, p) ∈ st.queue := by
          rw [hq]
          exact List.mem_cons_self _ _
        have hifst : i ∈ st.queue.map Prod.fst := List.mem_map_of_mem _ hhead
        refine ⟨?_, h.results_ok, ?_, ?_, ?_, ?_, ?_⟩
        · intro e he
          dsimp only at he
          exact h.queue_ok e (by rw [hq]; exact List.mem_cons_of_mem _ he)
        · show (((i, w) :: st.pullLog).map Prod.fst).Nodup
          rw [List.map_cons]
          exact List.nodup_cons.mpr ⟨h.disj i hifst, h.pull_nodup⟩
        · show (rest.map Prod.fst).Nodup
          have hnd := h.queue_nodup
          rw [hq, List.map_cons] at hnd
          exact (List.nodup_cons.mp hnd).2
        · intro j hj
          dsimp only at hj
          have hjq : j ∈ st.queue.map Prod.fst := by
            rw [hq, List.map_cons]
            exact List.mem_cons_of_mem _ hj
          have hji : j ≠ i := by
            have hnd := h.queue_nodup
            rw [hq, List.map_cons] at hnd
            intro hcon
            subst hcon
            exact (List.nodup_cons.mp hnd).1 hj
          dsimp only
          rw [List.map_cons]
          intro hcon
          rcases List.mem_cons.mp hcon with hcon | hcon
          · exact hji hcon
          · exact h.disj j hjq hcon
        · intro w' i' p' k' hw'
          dsimp only at hw'
          by_cases hww : w' = w
          · subst hww
            rw [Function.update_same] at hw'
            injection hw' with h1 h2 h3
            rw [← h1, ← h2]
            exact h.queue_ok (i, p) hhead
          · rw [Function.update_noteq hww] at hw'
            exact h.working_ok w' i' p' k' hw'
        · intro w' i' hpull
          dsimp only at hpull
          rcases List.mem_cons.mp hpull with hhd | htl
          · injection hhd with h1 h2
            refine Or.inr (Or.inl ⟨p, st.pulls w, ?_⟩)
            dsimp only
            rw [h2, Function.update_same, h1]
          · by_cases hww : w' = w
            · subst hww
              rcases h.acct w' i' htl with hres | ⟨p', k', hwork⟩ | hdone
              · exact Or.inl hres
              · rw [hph] at hwork; simp at hwork
              · rw [hph] at hdone; simp at hdone
            · rcases h.acct w' i' htl with hres | ⟨p', k', hwork⟩ | hdone
              · exact Or.inl hres
              · refine Or.inr (Or.inl ⟨p', k', ?_⟩)
                dsimp only
                rw [Function.update_noteq hww]
                exact hwork
              · refine Or.inr (Or.inr ?_)
                dsimp only
                rw [Function.update_noteq hww]
                exact hdone
    · -- working: crash or record
      rcases hjb : (scripts w).jobs k with msg | ⟨gen, saved⟩
      · -- job processing raises → worker dead, item lost
        have hstep : account_worker_step names scripts st w =
            { st with phases := Function.update st.phases w (.done true) } := by
          unfold account_worker_step
          rw [if_pos hw, hph]
          dsimp only
          rw [hjb]
        rw [hstep]
        exact inv_phase_update h w (.done true) (by intro a b c; simp)
          (fun j _ => Or.inr rfl)
      · -- job finishes → record outcome, back to idle
        have hstep : account_worker_step names scripts st w =
            { st with
                results := (i, mkParallelResult p (names.getD w "") gen saved)
                  :: st.results,
                phases := Function.update st.phases w .idle } := by
          unfold account_worker_step
          rw [if_pos hw, hph]
          dsimp only
          rw [hjb]
        rw [hstep]
        refine ⟨h.queue_ok, ?_, h.pull_nodup, h.queue_nodup, h.disj, ?_, ?_⟩
        · intro r hr
          dsimp only at hr
          rcases List.mem_cons.mp hr with hhd | htl
          · subst hhd
            exact h.working_ok w i p k hph
          · exact h.results_ok r htl
        · intro w' i' p' k' hw'
          dsimp only at hw'
          by_cases hww : w' = w
          · subst hww
            rw [Function.update_same] at hw'
            simp at hw'
          · rw [Function.update_noteq hww] at hw'
            exact h.working_ok w' i' p' k' hw'
        · intro w' i' hpull
          dsimp only at hpull
          by_cases hww : w' = w
          · subst hww
            rcases h.acct w' i' hpull with hres | ⟨p', k', hwork⟩ | hdone
            · rcases hres with ⟨pr, hpr⟩
              exact Or.inl ⟨pr, List.mem_cons_of_mem _ hpr⟩
            · rw [hph] at hwork
              injection hwork with h1 h2 h3
              rw [← h1]
              exact Or.inl ⟨_, List.mem_cons_self _ _⟩
            · rw [hph] at hdone; simp at hdone
          · rcases h.acct w' i' hpull with hres | ⟨p', k', hwork⟩ | hdone
            · rcases hres with ⟨pr, hpr⟩
              exact Or.inl ⟨pr, List.mem_cons_of_mem _ hpr⟩
            · refine Or.inr (Or.inl ⟨p', k', ?_⟩)
              dsimp only
              rw [Function.update_noteq hww]
              exact hwork
            · refine Or.inr (Or.inr ?_)
              dsimp only
              rw [Function.update_noteq hww]
              exact hdone
    · -- done: no-op
      have hstep : account_worker_step names scripts st w = st := by
        unfold account_worker_step
        rw [if_pos hw, hph]
      rw [hstep]
      exact h

/-- Any schedule preserves the pool invariant. -/
lemma runPool_inv (names : List String) (scripts : Nat → WorkerScript)
    {prompts : List String} (sched : List Nat) {st : PoolSt}
    (h : PoolInv prompts st) :
    PoolInv prompts (runPool names scripts sched st) := by
  induction sched generalizing st with
  | nil => exact h
  | cons a t ih => exact ih (step_inv names scripts h a)

/-- The invariant holds of the pool state `run_parallel` reaches. -/
lemma runParallelState_inv (prompts accountNames registry : List String)
    (mc : Option Nat) (scripts : Nat → WorkerScript) (sched : List Nat) :
    PoolInv prompts
      (runParallelState prompts accountNames registry mc scripts sched) := by
  unfold runParallelState
  rcases resolveAndValidate accountNames registry with e | resolved
  · exact poolInit_inv prompts
  · exact runPool_inv _ scripts sched (poolInit_inv prompts)

/-- The aggregate has one entry per enumerated prompt. -/
lemma buildAllResults_length (prompts : List String)
    (rs : List (Nat × ParallelResult)) :
    (buildAllResults prompts rs).length = prompts.length := by
  simp [buildAllResults, enumIdx]

/-- If results pair each index with the submitted prompt there, the
aggregate's prompts are exactly the submitted list, in order. -/
lemma buildAllResults_map_prompt (prompts : List String)
    (rs : List (Nat × ParallelResult))
    (hres : ∀ r ∈ rs, prompts.getD r.1 "" = r.2.prompt) :
    (buildAllResults prompts rs).map (fun e => e.prompt) = prompts := by
  unfold buildAllResults
  rw [List.map_map]
  apply List.ext_getElem
  · simp [enumIdx]
  · intro n h1 h2
    have hn : n < prompts.length := by simpa [enumIdx] using h2
    have hb : n < (enumIdx prompts).length := by simpa [enumIdx] using hn
    have henum : (enumIdx prompts)[n] = (n, prompts.getD n "") := by
      unfold enumIdx
      simp
    rw [List.getElem_map, henum]
    simp only [Function.comp]
    rcases hl : lookupIdx rs n with _ | pr
    · simp [notProcessedEntry, List.getElem?_eq_getElem hn]
    · have hmem := lookupIdx_mem rs n hl
      have hpr := hres (n, pr) hmem
      dsimp only at hpr
      simp [toOutEntry, ← hpr, List.getElem?_eq_getElem hn]

/-- C1: for every submitted list of N prompts and every account list that
passes validation, `run_parallel` returns an aggregate whose results list
has exactly N entries in submission order — entry i carries prompt i —
and whose successful and failed counts sum to N (parallel.py lines
179–185, 207–239). -/
theorem C1_aggregate_complete (prompts accountNames registry : List String)
    (mc : Option Nat) (scripts : Nat → WorkerScript) (sched : List Nat)
    (resolved : List String)
    (hval : resolveAndValidate accountNames registry = .ok resolved) :
    (run_parallel prompts accountNames registry mc scripts sched).results.map
        (fun e => e.prompt) = prompts ∧
    (run_parallel prompts accountNames registry mc scripts sched).results.length
        = prompts.length ∧
    (run_parallel prompts accountNames registry mc scripts sched).successful
        + (run_parallel prompts accountNames registry mc scripts sched).failed
        = prompts.length := by
  have hinv := runParallelState_inv prompts accountNames registry mc scripts sched
  unfold runParallelState at hinv
  rw [hval] at hinv
  unfold run_parallel
  rw [hval]
  dsimp only
  refine ⟨?_, ?_, ?_⟩
  · exact buildAllResults_map_prompt prompts _
      (fun r hr => (hinv.results_ok r hr).1)
  · exact buildAllResults_length prompts _
  · have hle := List.countP_le_length (p := fun r => r.success)
      (l := buildAllResults prompts
        (runPool (resolved.take (effectiveConcurrent mc resolved prompts))
          scripts sched (poolInit prompts)).results)
    have hlen := buildAllResults_length prompts
      (runPool (resolved.take (effectiveConcurrent mc resolved prompts))
        scripts sched (poolInit prompts)).results
    omega

/-- Witness for C1: the single-worker scenario
`jobs=["cat","dog","cat"], accounts=["a1"]` yields three outcomes
carrying the prompts in order, with counts summing to 3. -/
theorem C1_aggregate_complete_witness :
    (run_parallel ["cat", "dog", "cat"] ["a1"] ["a1"] none steadyScripts
        schedOne).results.map (fun e => e.prompt) = ["cat", "dog", "cat"] ∧
    (run_parallel ["cat", "dog", "cat"] ["a1"] ["a1"] none steadyScripts
        schedOne).results.length = 3 ∧
    (run_parallel ["cat", "dog", "cat"] ["a1"] ["a1"] none steadyScripts
        schedOne).successful
      + (run_parallel ["cat", "dog", "cat"] ["a1"] ["a1"] none steadyScripts
        schedOne).failed = 3 :=
  C1_aggregate_complete ["cat", "dog", "cat"] ["a1"] ["a1"] none steadyScripts
    schedOne ["a1"] (by decide)

/-- C2: no queue index is ever pulled by two workers — in particular a
crashed worker's pulled-but-unfinished entry is never re-pulled; a worker
that exits normally has recorded an outcome for every entry it pulled —
so one worker's crash does not prevent the others from completing their
pulled jobs; and every index no worker completed appears in the final
aggregate as a Failure marked not-processed (parallel.py lines 61–107,
205–230). -/
theorem C2_crash_isolation (prompts accountNames registry : List String)
    (mc : Option Nat) (scripts : Nat → WorkerScript) (sched : List Nat)
    (resolved : List String)
    (hval : resolveAndValidate accountNames registry = .ok resolved) :
    ((runParallelState prompts accountNames registry mc scripts
        sched).pullLog.map Prod.fst).Nodup ∧
    (∀ w i,
      (runParallelState prompts accountNames registry mc scripts sched).phases w
        = .done false →
      (i, w) ∈ (runParallelState prompts accountNames registry mc scripts
        sched).pullLog →
      ∃ pr, (i, pr) ∈ (runParallelState prompts accountNames registry mc scripts
        sched).results) ∧
    (∀ i, i < prompts.length →
      lookupIdx (runParallelState prompts accountNames registry mc scripts
        sched).results i = none →
      (run_parallel prompts accountNames registry mc scripts sched).results[i]?
        = some (notProcessedEntry (prompts.getD i ""))) := by
  have hinv := runParallelState_inv prompts accountNames registry mc scripts sched
  refine ⟨hinv.pull_nodup, ?_, ?_⟩
  · intro w i hph hpull
    rcases hinv.acct w i hpull with hres | ⟨p', k', hwork⟩ | hdone
    · exact hres
    · rw [hph] at hwork; simp at hwork
    · rw [hph] at hdone; simp at hdone
  · intro i hi hlook
    unfold runParallelState at hlook
    rw [hval] at hlook
    unfold run_parallel
    rw [hval]
    dsimp only
    unfold buildAllResults
    rw [List.getElem?_map]
    have henum : (enumIdx prompts)[i]? = some (i, prompts.getD i "") := by
      unfold enumIdx
      simp [List.getElem?_range, hi]
    rw [henum]
    simp only [Option.map_some']
    rw [hlook]

/-- Witness for C2: three prompts, two workers; worker 0 crashes while
processing index 0 mid-loop, worker 1 completes indices 1 and 2 and exits
normally; index 0 is never re-pulled and appears as not-processed. -/
theorem C2_crash_isolation_witness :
    ((runParallelState ["a", "b", "c"] ["w0", "w1"] ["w0", "w1"] none
        crashFirstScripts schedTwo).pullLog.map Prod.fst).Nodup ∧
    (∃ pr, (1, pr) ∈ (runParallelState ["a", "b", "c"] ["w0", "w1"]
        ["w0", "w1"] none crashFirstScripts schedTwo).results) ∧
    (run_parallel ["a", "b", "c"] ["w0", "w1"] ["w0", "w1"] none
        crashFirstScripts schedTwo).results[0]?
      = some (notProcessedEntry "a") :=
  ⟨(C2_crash_isolation ["a", "b", "c"] ["w0", "w1"] ["w0", "w1"] none
      crashFirstScripts schedTwo ["w0", "w1"] (by decide)).1,
   (C2_crash_isolation ["a", "b", "c"] ["w0", "w1"] ["w0", "w1"] none
      crashFirstScripts schedTwo ["w0", "w1"] (by decide)).2.1 1 1 (by decide)
      (by decide),
   (C2_crash_isolation ["a", "b", "c"] ["w0", "w1"] ["w0", "w1"] none
      crashFirstScripts schedTwo ["w0", "w1"] (by decide)).2.2 0 (by decide)
      (by decide)⟩

/-- C4 counterexample: the claim omits the validation precondition.  With
one prompt, one requested account and an empty registry, validation fails
before any worker starts — zero workers — while the claim's formula
`min(max_concurrent or 1, 1, 1)` equals 1. -/
theorem C4_counterexample :
    (run_parallel ["p"] ["alice"] [] none steadyScripts []).workersStarted
      ≠ min (pyOrNat none 1) (min 1 1) := by decide

/-- C4 (amended): whenever the account list passes validation (after the
special `["all"]` list is resolved to the registered accounts), the
number of worker tasks `run_parallel` starts equals
`min(max_concurrent or |accounts|, |accounts|, |prompts|)` — with
Python's `or` treating both `None` and `0` as unset (parallel.py lines
156–162, 188–205). -/
theorem C4_concurrency_bound (prompts accountNames registry : List String)
    (mc : Option Nat) (scripts : Nat → WorkerScript) (sched : List Nat)
    (resolved : List String)
    (hval : resolveAndValidate accountNames registry = .ok resolved) :
    (run_parallel prompts accountNames registry mc scripts sched).workersStarted
      = min (pyOrNat mc resolved.length) (min resolved.length prompts.length) := by
  unfold run_parallel
  rw [hval]
  dsimp only
  rw [List.length_take]
  unfold effectiveConcurrent
  exact Nat.min_eq_left
    (le_trans (Nat.min_le_right _ _) (Nat.min_le_left _ _))

/-- Witness for C4 (amended): 10 jobs, 3 accounts, `max_concurrent = 5`
yield exactly 3 workers. -/
theorem C4_concurrency_bound_witness :
    (run_parallel ["p1", "p2", "p3", "p4", "p5", "p6", "p7", "p8", "p9", "p10"]
        ["a1", "a2", "a3"] ["a1", "a2", "a3"] (some 5) steadyScripts
        []).workersStarted = 3 := by
  rw [C4_concurrency_bound
    ["p1", "p2", "p3", "p4", "p5", "p6", "p7", "p8", "p9", "p10"]
    ["a1", "a2", "a3"] ["a1", "a2", "a3"] (some 5) steadyScripts []
    ["a1", "a2", "a3"] (by decide)]
  decide

/-- Witness for C9 (amended): the concrete run whose textarea wait times
out fails with the not-logged-in message and never submits. -/
theorem C9_amended_auth_before_submit_witness :
    (generate envNoTextarea "p").1 =
      { prompt := "p", image_urls := [], success := false,
        error := some "Textarea not found - may not be logged in" } ∧
    GenEv.submit ∉ (generate envNoTextarea "p").2 :=
  ⟨(C9_amended_auth_before_submit.1 envNoTextarea "p" "Timeout 30000ms exceeded"
      rfl (fun _ ho => nomatch ho) rfl).1,
   (C9_amended_auth_before_submit.1 envNoTextarea "p" "Timeout 30000ms exceeded"
      rfl (fun _ ho => nomatch ho) rfl).2.1⟩
